import Mathlib

/-
  Verification development for the InterviewAI repository.

  Shallow embedding of the pure text-processing and aggregation logic of
  modules/evaluator.py, modules/report_generator.py, modules/resume_parser.py
  and modules/question_generator.py.  LLM calls, logging and file output are
  external effects; the functions below model the deterministic data
  transformations those modules perform on their inputs.  Python floats are
  modelled as rationals, Python strings as Lean strings (lists of characters).
-/

namespace InterviewAI

/-! ## String helpers mirroring the Python string primitives used by the code -/

/-- Characters removed by Python str.strip() with no arguments
    (ASCII whitespace, as used throughout the repository). -/
def isPySpace (c : Char) : Bool :=
  c = ' ' || c = '\t' || c = '\n' || c = '\r' || c = '\x0b' || c = '\x0c'

/-- str.strip() on a character list: drop whitespace from both ends. -/
def stripChars (l : List Char) : List Char :=
  ((l.dropWhile isPySpace).reverse.dropWhile isPySpace).reverse

/-- Python str.strip(). -/
def pyStrip (s : String) : String := ⟨stripChars s.data⟩

/-- Split a character list on a separator character, Python str.split(sep):
    n separators yield n+1 (possibly empty) fields. -/
def splitCharList (sep : Char) : List Char → List (List Char)
  | [] => [[]]
  | c :: rest =>
    if c = sep then [] :: splitCharList sep rest
    else
      match splitCharList sep rest with
      | [] => [[c]]
      | h :: t => (c :: h) :: t

/-- Python s.split(sep) for a one-character separator. -/
def pySplit (sep : Char) (s : String) : List String :=
  (splitCharList sep s.data).map fun l => ⟨l⟩

/-- Python s.split('\n'), the line splitting used by all three parsers. -/
def splitLines (s : String) : List String := pySplit '\n' s

/-- Python s.startswith(p). -/
def startsWithStr (p s : String) : Bool := p.data.isPrefixOf s.data

/-- Remove every occurrence of a (nonempty) pattern from a character list,
    fuelled so the recursion is structural (fuel bounds the number of steps;
    one character or one pattern occurrence is consumed per step, so a fuel of
    the list length is always enough). -/
def removeAllAux (pat : List Char) : Nat → List Char → List Char
  | 0, l => l
  | _, [] => []
  | fuel + 1, c :: rest =>
    if pat ≠ [] ∧ pat.isPrefixOf (c :: rest) then
      removeAllAux pat fuel ((c :: rest).drop pat.length)
    else
      c :: removeAllAux pat fuel rest

/-- Remove every occurrence of a (nonempty) pattern from a character list:
    Python s.replace(pat, ''), the only form of replace the code uses. -/
def removeAllList (pat l : List Char) : List Char := removeAllAux pat l.length l

/-- Python s.replace(pat, ''). -/
def pyRemoveAll (pat s : String) : String := ⟨removeAllList pat.data s.data⟩

/-- Does the haystack contain the needle as a contiguous substring
    (Python: needle in haystack)? -/
def containsSub (pat : List Char) : List Char → Bool
  | [] => pat.isEmpty
  | c :: rest => pat.isPrefixOf (c :: rest) || containsSub pat rest

/-- Python s.lower(), ASCII case folding (all vocabulary in the code is ASCII). -/
def lowerStr (s : String) : String := ⟨s.data.map Char.toLower⟩

/-- Does the lowercased string contain any of the given words
    (Python: any(word in s for word in words))? -/
def containsAnyOf (s : String) (words : List String) : Bool :=
  words.any fun w => containsSub w.data s.data

/-- Python '\n'.join(ls). -/
def joinNl : List String → String
  | [] => ""
  | [s] => s
  | s :: rest => s ++ "\n" ++ joinNl rest

/-- Number of whitespace-separated tokens, Python len(s.split()). -/
def countWordsAux : Bool → List Char → Nat
  | _, [] => 0
  | inWord, c :: rest =>
    if isPySpace c then countWordsAux false rest
    else (if inWord then 0 else 1) + countWordsAux true rest

/-- Python len(s.split()). -/
def wordCount (s : String) : Nat := countWordsAux false s.data

/-- Value of a digit run read in base 10. -/
def digitsToNat (l : List Char) : Nat :=
  l.foldl (fun n c => 10 * n + (c.toNat - 48)) 0

/-! ## Rational arithmetic

The Mathlib operations on ℚ are irreducible to the kernel, so the embedding
computes with wrappers written in terms of Rat.divInt, which does reduce;
each wrapper is proved equal to the corresponding Mathlib operation, and the
theorems below are stated with the ordinary operations. -/

/-- Exact rational addition, kernel-computable. -/
def ratAdd (a b : ℚ) : ℚ := Rat.divInt (a.num * b.den + b.num * a.den) (a.den * b.den)

/-- Exact rational subtraction, kernel-computable. -/
def ratSub (a b : ℚ) : ℚ := Rat.divInt (a.num * b.den - b.num * a.den) (a.den * b.den)

/-- Exact rational multiplication, kernel-computable. -/
def ratMul (a b : ℚ) : ℚ := Rat.divInt (a.num * b.num) (a.den * b.den)

/-- Exact rational division (0 when the divisor is 0, matching Mathlib's
    division), kernel-computable. -/
def ratDiv (a b : ℚ) : ℚ := Rat.divInt (a.num * b.den) (a.den * b.num)

/-- Python sum() over a list of rationals: a left fold of additions. -/
def sumRat (l : List ℚ) : ℚ := l.foldl ratAdd 0

theorem num_eq_self_mul_den (a : ℚ) : (a.num : ℚ) = a * a.den := by
  have ha : ((a.den : ℚ)) ≠ 0 := Nat.cast_ne_zero.mpr a.den_nz
  rw [← div_eq_iff ha]
  exact Rat.num_div_den a

theorem ratAdd_eq (a b : ℚ) : ratAdd a b = a + b := by
  unfold ratAdd
  have ha : ((a.den : ℚ)) ≠ 0 := Nat.cast_ne_zero.mpr a.den_nz
  have hb : ((b.den : ℚ)) ≠ 0 := Nat.cast_ne_zero.mpr b.den_nz
  rw [Rat.divInt_eq_div, div_eq_iff (by push_cast; exact mul_ne_zero ha hb)]
  push_cast
  rw [num_eq_self_mul_den a, num_eq_self_mul_den b]
  ring

theorem ratSub_eq (a b : ℚ) : ratSub a b = a - b := by
  unfold ratSub
  have ha : ((a.den : ℚ)) ≠ 0 := Nat.cast_ne_zero.mpr a.den_nz
  have hb : ((b.den : ℚ)) ≠ 0 := Nat.cast_ne_zero.mpr b.den_nz
  rw [Rat.divInt_eq_div, div_eq_iff (by push_cast; exact mul_ne_zero ha hb)]
  push_cast
  rw [num_eq_self_mul_den a, num_eq_self_mul_den b]
  ring

theorem ratMul_eq (a b : ℚ) : ratMul a b = a * b := by
  unfold ratMul
  have ha : ((a.den : ℚ)) ≠ 0 := Nat.cast_ne_zero.mpr a.den_nz
  have hb : ((b.den : ℚ)) ≠ 0 := Nat.cast_ne_zero.mpr b.den_nz
  rw [Rat.divInt_eq_div, div_eq_iff (by push_cast; exact mul_ne_zero ha hb)]
  push_cast
  rw [num_eq_self_mul_den a, num_eq_self_mul_den b]
  ring

theorem ratDiv_eq (a b : ℚ) : ratDiv a b = a / b := by
  unfold ratDiv
  rcases eq_or_ne b 0 with rfl | hb
  · simp
  · have hbn : ((b.num : ℚ)) ≠ 0 := Int.cast_ne_zero.mpr (Rat.num_ne_zero.mpr hb)
    have ha : ((a.den : ℚ)) ≠ 0 := Nat.cast_ne_zero.mpr a.den_nz
    have hbd : ((b.den : ℚ)) ≠ 0 := Nat.cast_ne_zero.mpr b.den_nz
    rw [Rat.divInt_eq_div, div_eq_div_iff (by push_cast; exact mul_ne_zero ha hbn) hb]
    push_cast
    rw [num_eq_self_mul_den a, num_eq_self_mul_den b]
    ring

theorem foldl_ratAdd_eq (l : List ℚ) : ∀ a : ℚ, l.foldl ratAdd a = a + l.sum := by
  induction l with
  | nil => intro a; simp
  | cons x xs ih =>
    intro a
    simp only [List.foldl_cons, List.sum_cons, ih, ratAdd_eq]
    ring

theorem sumRat_eq (l : List ℚ) : sumRat l = l.sum := by
  unfold sumRat
  rw [foldl_ratAdd_eq]
  ring

/-! ## evaluator.py: AnswerEvaluator._parse_evaluation -/

/-- The structured record produced by AnswerEvaluator._parse_evaluation
    (modules/evaluator.py). -/
structure AnswerEvaluation where
  score : ℚ
  strengths : List String
  areas_for_improvement : List String
  feedback : String
  overall_assessment : String
deriving DecidableEq

/-- The default record _parse_evaluation starts from. -/
def emptyEvaluation : AnswerEvaluation :=
  { score := 0, strengths := [], areas_for_improvement := [],
    feedback := "", overall_assessment := "" }

/-- One attempt of the Python regex (\d+(?:\.\d+)?)/10 at a fixed position.
    The greedy digit runs cannot usefully backtrack (the characters after them
    in the pattern are not digits), so the match is deterministic: a maximal
    digit run, optionally a dot and a second maximal digit run, then the
    literal characters /10.  Returns the text of capture group 1. -/
def tryScoreAt (l : List Char) : Option (List Char) :=
  match l with
  | [] => none
  | c :: _ =>
    if c.isDigit then
      let d1 := l.takeWhile Char.isDigit
      let rest1 := l.dropWhile Char.isDigit
      match rest1 with
      | '.' :: r2 =>
        let d2 := r2.takeWhile Char.isDigit
        let rest2 := r2.dropWhile Char.isDigit
        if d2 ≠ [] ∧ rest2.take 3 = ['/', '1', '0'] then
          some (d1 ++ '.' :: d2)
        else none
      | '/' :: '1' :: '0' :: _ => some d1
      | _ => none
    else none

/-- re.search of (\d+(?:\.\d+)?)/10: try each start position left to right. -/
def searchScore : List Char → Option (List Char)
  | [] => none
  | c :: rest =>
    match tryScoreAt (c :: rest) with
    | some g => some g
    | none => searchScore rest

/-- float() applied to the captured group (digits, optionally dot digits),
    read exactly: integer part plus fractional digits over a power of ten. -/
def groupToRat (g : List Char) : ℚ :=
  let intPart := g.takeWhile Char.isDigit
  let rest := g.dropWhile Char.isDigit
  match rest with
  | '.' :: frac =>
    ratAdd (digitsToNat intPart : ℚ) (ratDiv (digitsToNat frac : ℚ) ((10 ^ frac.length : Nat) : ℚ))
  | _ => (digitsToNat intPart : ℚ)

/-- The current-section tag of the line-oriented state machine. -/
inductive EvalSection where
  | strengths
  | areas
  | feedback
  | overall
deriving DecidableEq

/-- Loop state of _parse_evaluation: the record built so far plus the most
    recently seen section label (None before any label). -/
structure EvalLoopState where
  ev : AnswerEvaluation
  cur : Option EvalSection
deriving DecidableEq

/-- One iteration of the for-loop of _parse_evaluation over a raw line. -/
def parse_evaluation_step (st : EvalLoopState) (rawLine : String) : EvalLoopState :=
  let line := pyStrip rawLine
  if line = "" then st
  else if startsWithStr "Score:" line then
    match searchScore line.data with
    | some g => { st with ev := { st.ev with score := groupToRat g } }
    | none => st
  else if startsWithStr "Strengths:" line then
    let content := pyStrip (pyRemoveAll "Strengths:" line)
    { ev := { st.ev with strengths :=
        if content = "" then st.ev.strengths
        else (pySplit ',' content).map pyStrip },
      cur := some EvalSection.strengths }
  else if startsWithStr "Areas for Improvement:" line then
    let content := pyStrip (pyRemoveAll "Areas for Improvement:" line)
    { ev := { st.ev with areas_for_improvement :=
        if content = "" then st.ev.areas_for_improvement
        else (pySplit ',' content).map pyStrip },
      cur := some EvalSection.areas }
  else if startsWithStr "Feedback:" line then
    { ev := { st.ev with feedback := pyStrip (pyRemoveAll "Feedback:" line) },
      cur := some EvalSection.feedback }
  else if startsWithStr "Overall Assessment:" line then
    { ev := { st.ev with overall_assessment := pyStrip (pyRemoveAll "Overall Assessment:" line) },
      cur := some EvalSection.overall }
  else
    match st.cur with
    | some EvalSection.strengths =>
      { st with ev := { st.ev with strengths :=
          st.ev.strengths ++ (pySplit ',' line).map pyStrip } }
    | some EvalSection.areas =>
      { st with ev := { st.ev with areas_for_improvement :=
          st.ev.areas_for_improvement ++ (pySplit ',' line).map pyStrip } }
    | some EvalSection.feedback =>
      { st with ev := { st.ev with feedback := st.ev.feedback ++ " " ++ line } }
    | some EvalSection.overall =>
      { st with ev := { st.ev with overall_assessment := st.ev.overall_assessment ++ " " ++ line } }
    | none => st

/-- AnswerEvaluator._parse_evaluation (modules/evaluator.py, lines 94-153). -/
def parse_evaluation (evaluation_text : String) : AnswerEvaluation :=
  ((splitLines evaluation_text).foldl parse_evaluation_step
    { ev := emptyEvaluation, cur := none }).ev

/-! ## evaluator.py: evaluate_interview_round and _get_performance_level -/

/-- Floor of a rational, computed on the normalized numerator/denominator. -/
def ratFloor (q : ℚ) : ℤ := q.num.fdiv q.den

/-- Round a rational to the nearest integer, ties to the even integer:
    the rounding Python's round() performs. -/
def pyRoundHalfEven (q : ℚ) : ℤ :=
  let f := ratFloor q
  if ratSub q (f : ℚ) < mkRat 1 2 then f
  else if ratSub q (f : ℚ) > mkRat 1 2 then f + 1
  else if f % 2 = 0 then f else f + 1

/-- Python round(q, 2). -/
def pyRound2 (q : ℚ) : ℚ := ratDiv ((pyRoundHalfEven (ratMul q 100) : ℤ) : ℚ) 100

/-- AnswerEvaluator._get_performance_level (modules/evaluator.py, lines
    185-196); the thresholds 8.5 and 5.5 are written as exact rationals. -/
def get_performance_level (score : ℚ) : String :=
  if score ≥ mkRat 17 2 then "Excellent"
  else if score ≥ 7 then "Good"
  else if score ≥ mkRat 11 2 then "Average"
  else if score ≥ 4 then "Below Average"
  else "Needs Improvement"

/-- One question/answer pair handed to evaluate_interview_round
    (the 'type' key is optional, qa.get('type', 'Unknown')). -/
structure QA where
  question : String
  answer : String
  type : Option String
deriving DecidableEq

/-- The round record built by evaluate_interview_round.  The derived
    overall_feedback narrative string (Counter-based most-common formatting)
    is an output-only display field no claim refers to and is not modelled. -/
structure RoundEvaluation where
  evaluations : List AnswerEvaluation
  average_score : ℚ
  total_questions : Nat
  performance_level : String
deriving DecidableEq

/-- AnswerEvaluator.evaluate_interview_round (modules/evaluator.py,
    lines 56-92).  The per-answer LLM evaluation is an external call, passed
    here as the function evaluate_answer; the aggregation below is the code's
    own arithmetic: an in-order sum of the scores, average 0 on an empty
    input, round(average, 2) stored, and the performance band computed from
    the unrounded average. -/
def evaluate_interview_round (evaluate_answer : String → String → String → AnswerEvaluation)
    (questions_answers : List QA) : RoundEvaluation :=
  let evaluations := questions_answers.map fun qa =>
    evaluate_answer qa.question qa.answer (qa.type.getD "Unknown")
  let total_score : ℚ := evaluations.foldl (fun acc e => ratAdd acc e.score) 0
  let average_score : ℚ :=
    if questions_answers = [] then 0
    else ratDiv total_score (questions_answers.length : ℚ)
  { evaluations := evaluations
  , average_score := pyRound2 average_score
  , total_questions := questions_answers.length
  , performance_level := get_performance_level average_score }

/-! ## report_generator.py: ReportGenerator -/

/-- The assessment record built by _create_overall_assessment.  Its
    strengths/areas lists are initialized empty and never filled by the code. -/
structure OverallAssessment where
  overall_score : ℚ
  strengths : List String
  areas_for_improvement : List String
  recommendation : String
deriving DecidableEq

/-- ReportGenerator._create_overall_assessment (modules/report_generator.py,
    lines 108-137).  A round contributes to the score list only when it is
    present AND its average_score is truthy in Python, i.e. nonzero
    (hr_evaluation and hr_evaluation.get('average_score')).  The initial
    'Consider for next round' recommendation is always overwritten by the
    total if/elif/else chain, so only the four banded strings can result. -/
def create_overall_assessment (hr_evaluation technical_evaluation : Option RoundEvaluation) :
    OverallAssessment :=
  let scores : List ℚ :=
    (match hr_evaluation with
     | some h => if h.average_score ≠ 0 then [h.average_score] else []
     | none => []) ++
    (match technical_evaluation with
     | some t => if t.average_score ≠ 0 then [t.average_score] else []
     | none => [])
  let overall_score : ℚ :=
    if scores = [] then 0 else ratDiv (sumRat scores) (scores.length : ℚ)
  { overall_score := overall_score
  , strengths := []
  , areas_for_improvement := []
  , recommendation :=
      if overall_score ≥ 8 then "Strong candidate - Highly recommended"
      else if overall_score ≥ mkRat 13 2 then "Good candidate - Recommended"
      else if overall_score ≥ 5 then "Average candidate - Consider for specific roles"
      else "Needs improvement - Not recommended at this time" }

/-- ReportGenerator._generate_recommendations (modules/report_generator.py,
    lines 139-159). -/
def generate_recommendations (hr_evaluation technical_evaluation : Option RoundEvaluation) :
    List String :=
  let recommendations :=
    (match hr_evaluation with
     | some h =>
       if h.average_score < 6 then
         ["Focus on improving communication and interpersonal skills",
          "Practice behavioral interview questions"]
       else []
     | none => []) ++
    (match technical_evaluation with
     | some t =>
       if t.average_score < 6 then
         ["Strengthen technical knowledge in core areas",
          "Practice coding problems and system design questions"]
       else []
     | none => [])
  if recommendations = [] then
    ["Continue building on current strengths",
     "Consider advanced training in specialized areas"]
  else recommendations

/-- The pure aggregation part of a generated report: its overall assessment
    and its recommendation list. -/
structure InterviewReport where
  overall_assessment : OverallAssessment
  recommendations : List String
deriving DecidableEq

/-- ReportGenerator.generate_interview_report (modules/report_generator.py,
    lines 28-66), restricted to its deterministic aggregation outputs
    (candidate-info echo, charts, timestamps and the JSON/PDF file writes are
    external effects outside the embedding). -/
def generate_interview_report (hr_evaluation technical_evaluation : Option RoundEvaluation) :
    InterviewReport :=
  { overall_assessment := create_overall_assessment hr_evaluation technical_evaluation
  , recommendations := generate_recommendations hr_evaluation technical_evaluation }

/-! ## resume_parser.py: ResumeParser._parse_sections -/

/-- The fixed section-header vocabulary (modules/resume_parser.py,
    lines 122-129), in the order the code tests it. -/
def section_headers : List String :=
  ["experience", "work experience", "employment",
   "education", "academic background",
   "skills", "technical skills", "core competencies",
   "projects", "personal projects",
   "certifications", "certificates",
   "summary", "objective", "profile"]

/-- The header test of the loop body: a stripped line opens a new section
    when it has at most 3 whitespace-separated tokens and case-insensitively
    contains one of the header phrases; the first phrase in vocabulary order
    wins and becomes the section key. -/
def is_section_header (line : String) : Option String :=
  if wordCount line ≤ 3 then
    section_headers.find? fun header => containsSub (lowerStr header).data (lowerStr line).data
  else none

/-- Python dict assignment sections[key] = value on an insertion-ordered
    association list: overwrite the value at the first occurrence of the key,
    keeping its position, else append the pair. -/
def dictSet (key value : String) : List (String × String) → List (String × String)
  | [] => [(key, value)]
  | (k, v) :: rest =>
    if k = key then (key, value) :: rest else (k, v) :: dictSet key value rest

/-- The line loop of _parse_sections: sections accumulated so far, the
    current section key, and the content lines accumulated for it. -/
def parse_sections_loop (sections : List (String × String)) (current_section : String)
    (current_content : List String) : List String → List (String × String)
  | [] =>
    if current_content ≠ [] then
      dictSet current_section (joinNl current_content) sections
    else sections
  | rawLine :: rest =>
    let line := pyStrip rawLine
    if line = "" then parse_sections_loop sections current_section current_content rest
    else
      match is_section_header line with
      | some header =>
        parse_sections_loop
          (if current_content ≠ [] then
             dictSet current_section (joinNl current_content) sections
           else sections)
          header [] rest
      | none => parse_sections_loop sections current_section (current_content ++ [line]) rest

/-- ResumeParser._parse_sections (modules/resume_parser.py, lines 117-159). -/
def parse_sections (text : String) : List (String × String) :=
  parse_sections_loop [] "other" [] (splitLines text)

/-! ## question_generator.py: QuestionGenerator._parse_questions -/

/-- re.sub of the anchored pattern for a leading number-dot prefix followed by
    optional whitespace: digits then a literal dot are required, the following
    whitespace run is consumed greedily; on no match the line is unchanged. -/
def strip_numbering (l : List Char) : List Char :=
  let ds := l.takeWhile Char.isDigit
  match ds, l.drop ds.length with
  | _ :: _, '.' :: rest => rest.dropWhile isPySpace
  | _, _ => l

/-- QuestionGenerator._assess_difficulty (modules/question_generator.py,
    lines 143-153). -/
def assess_difficulty (question : String) : String :=
  let ql := lowerStr question
  if containsAnyOf ql ["explain", "describe", "analyze", "compare", "evaluate"] then "Hard"
  else if containsAnyOf ql ["what", "how", "why", "when", "where"] then "Medium"
  else "Easy"

/-- QuestionGenerator._categorize_question (modules/question_generator.py,
    lines 155-181). -/
def categorize_question (question : String) (question_type : String) : String :=
  let ql := lowerStr question
  if question_type = "HR" then
    if containsAnyOf ql ["team", "teamwork", "collaboration"] then "Teamwork"
    else if containsAnyOf ql ["lead", "leadership", "manage"] then "Leadership"
    else if containsAnyOf ql ["problem", "challenge", "difficult"] then "Problem Solving"
    else if containsAnyOf ql ["goal", "career", "future"] then "Career Goals"
    else "General HR"
  else
    if containsAnyOf ql ["code", "programming", "algorithm"] then "Programming"
    else if containsAnyOf ql ["database", "sql", "data"] then "Database"
    else if containsAnyOf ql ["system", "architecture", "design"] then "System Design"
    else if containsAnyOf ql ["framework", "library", "tool"] then "Frameworks & Tools"
    else "General Technical"

/-- One generated question record (modules/question_generator.py, line 134). -/
structure QuestionRecord where
  question : String
  type : String
  difficulty : String
  category : String
deriving DecidableEq

/-- The loop body of _parse_questions for one raw line: strip it, skip it
    when blank, strip a leading number-dot prefix, and keep it only when the
    result is nonempty and longer than 10 characters. -/
def parse_question_line (question_type : String) (rawLine : String) : Option QuestionRecord :=
  let line := pyStrip rawLine
  if line = "" then none
  else
    let line2 : String := ⟨strip_numbering line.data⟩
    if line2 ≠ "" ∧ line2.length > 10 then
      some { question := line2
           , type := question_type
           , difficulty := assess_difficulty line2
           , category := categorize_question line2 question_type }
    else none

/-- QuestionGenerator._parse_questions (modules/question_generator.py,
    lines 119-141): one record per kept line, in input order. -/
def parse_questions (questions_text : String) (question_type : String) : List QuestionRecord :=
  (splitLines questions_text).filterMap (parse_question_line question_type)

/-! ## Supporting lemmas about the evaluation parser -/

theorem groupToRat_nonneg (g : List Char) : 0 ≤ groupToRat g := by
  simp only [groupToRat]
  split
  · rw [ratAdd_eq, ratDiv_eq]
    positivity
  · positivity

/-- A stripped line updates the score field exactly when it starts with the
    Score label and the rest of the regex finds a match. -/
def score_line_matches (line : String) : Prop :=
  startsWithStr "Score:" line = true ∧ (searchScore line.data).isSome = true

instance (line : String) : Decidable (score_line_matches line) := by
  unfold score_line_matches
  infer_instance

/-- Each loop iteration either leaves the score unchanged or, on a matching
    Score line, replaces it with the parsed capture group. -/
theorem parse_evaluation_step_score (st : EvalLoopState) (raw : String) :
    (parse_evaluation_step st raw).ev.score = st.ev.score ∨
      (score_line_matches (pyStrip raw) ∧
        ∃ g, searchScore (pyStrip raw).data = some g ∧
          (parse_evaluation_step st raw).ev.score = groupToRat g) := by
  simp only [parse_evaluation_step]
  by_cases h0 : pyStrip raw = ""
  · rw [if_pos h0]; exact Or.inl rfl
  rw [if_neg h0]
  by_cases hS : startsWithStr "Score:" (pyStrip raw) = true
  · rw [if_pos hS]
    cases hg : searchScore (pyStrip raw).data with
    | none => exact Or.inl rfl
    | some g => exact Or.inr ⟨⟨hS, by rw [hg]; rfl⟩, g, rfl, rfl⟩
  rw [if_neg hS]
  by_cases h1 : startsWithStr "Strengths:" (pyStrip raw) = true
  · rw [if_pos h1]; exact Or.inl rfl
  rw [if_neg h1]
  by_cases h2 : startsWithStr "Areas for Improvement:" (pyStrip raw) = true
  · rw [if_pos h2]; exact Or.inl rfl
  rw [if_neg h2]
  by_cases h3 : startsWithStr "Feedback:" (pyStrip raw) = true
  · rw [if_pos h3]; exact Or.inl rfl
  rw [if_neg h3]
  by_cases h4 : startsWithStr "Overall Assessment:" (pyStrip raw) = true
  · rw [if_pos h4]; exact Or.inl rfl
  rw [if_neg h4]
  cases hc : st.cur with
  | none => exact Or.inl rfl
  | some s => cases s <;> exact Or.inl rfl

theorem parse_evaluation_step_score_nonneg (st : EvalLoopState) (raw : String)
    (h : 0 ≤ st.ev.score) : 0 ≤ (parse_evaluation_step st raw).ev.score := by
  rcases parse_evaluation_step_score st raw with heq | ⟨_, g, _, heq⟩
  · rw [heq]; exact h
  · rw [heq]; exact groupToRat_nonneg g

theorem parse_evaluation_step_score_const (st : EvalLoopState) (raw : String)
    (h : ¬ score_line_matches (pyStrip raw)) :
    (parse_evaluation_step st raw).ev.score = st.ev.score := by
  rcases parse_evaluation_step_score st raw with heq | ⟨hm, _⟩
  · exact heq
  · exact absurd hm h

theorem parse_eval_fold_score_nonneg :
    ∀ (lines : List String) (st : EvalLoopState), 0 ≤ st.ev.score →
      0 ≤ (lines.foldl parse_evaluation_step st).ev.score := by
  intro lines
  induction lines with
  | nil => intro st h; simpa using h
  | cons l rest ih =>
    intro st h
    simp only [List.foldl_cons]
    exact ih _ (parse_evaluation_step_score_nonneg st l h)

theorem parse_eval_fold_score_const :
    ∀ (lines : List String) (st : EvalLoopState),
      (∀ l ∈ lines, ¬ score_line_matches (pyStrip l)) →
      (lines.foldl parse_evaluation_step st).ev.score = st.ev.score := by
  intro lines
  induction lines with
  | nil => intro st _; rfl
  | cons l rest ih =>
    intro st h
    simp only [List.foldl_cons]
    rw [ih _ fun x hx => h x (List.mem_cons_of_mem l hx),
      parse_evaluation_step_score_const st l (h l (List.mem_cons_self l rest))]

/-- A stripped line is recognized by one of the parser's five labels. -/
def is_label_line (line : String) : Prop :=
  startsWithStr "Score:" line = true ∨ startsWithStr "Strengths:" line = true ∨
    startsWithStr "Areas for Improvement:" line = true ∨
    startsWithStr "Feedback:" line = true ∨
    startsWithStr "Overall Assessment:" line = true

instance (line : String) : Decidable (is_label_line line) := by
  unfold is_label_line
  infer_instance

theorem parse_evaluation_step_id (st : EvalLoopState) (hcur : st.cur = none) (raw : String)
    (h : ¬ is_label_line (pyStrip raw)) : parse_evaluation_step st raw = st := by
  simp only [parse_evaluation_step]
  unfold is_label_line at h
  push_neg at h
  obtain ⟨h1, h2, h3, h4, h5⟩ := h
  by_cases h0 : pyStrip raw = ""
  · rw [if_pos h0]
  rw [if_neg h0, if_neg h1, if_neg h2, if_neg h3, if_neg h4, if_neg h5, hcur]

theorem parse_eval_fold_id :
    ∀ (lines : List String) (st : EvalLoopState), st.cur = none →
      (∀ l ∈ lines, ¬ is_label_line (pyStrip l)) →
      lines.foldl parse_evaluation_step st = st := by
  intro lines
  induction lines with
  | nil => intro st _ _; rfl
  | cons l rest ih =>
    intro st hcur h
    simp only [List.foldl_cons]
    rw [parse_evaluation_step_id st hcur l (h l (List.mem_cons_self l rest))]
    exact ih st hcur fun x hx => h x (List.mem_cons_of_mem l hx)

/-! ## Claims -/

/-- C7: parsing the evaluation-response text with lines Score: 8/10,
    Strengths: clarity, depth, Areas for Improvement: brevity,
    Feedback: solid answer, Overall Assessment: strong yields score 8,
    strengths clarity and depth, improvement area brevity, feedback
    solid answer and overall assessment strong. -/
theorem parse_evaluation_roundtrip :
    parse_evaluation "Score: 8/10\nStrengths: clarity, depth\nAreas for Improvement: brevity\nFeedback: solid answer\nOverall Assessment: strong" =
      { score := 8, strengths := ["clarity", "depth"], areas_for_improvement := ["brevity"],
        feedback := "solid answer", overall_assessment := "strong" } := by decide

/-- C2 (amended): the parsed score is always nonnegative, and it is 0
    whenever no line both starts with the Score label and contains a number
    formatted as a fraction over 10; the parser does not bound the score
    above by 10 (see the counterexample). -/
theorem parse_evaluation_score_nonneg_default (text : String) :
    0 ≤ (parse_evaluation text).score ∧
      ((∀ l ∈ splitLines text, ¬ score_line_matches (pyStrip l)) →
        (parse_evaluation text).score = 0) := by
  constructor
  · unfold parse_evaluation
    exact parse_eval_fold_score_nonneg _ _ (by norm_num [emptyEvaluation])
  · intro h
    unfold parse_evaluation
    rw [parse_eval_fold_score_const _ _ h]
    rfl

theorem parse_evaluation_score_nonneg_default_witness :
    0 ≤ (parse_evaluation "Great answer overall").score ∧
      (parse_evaluation "Great answer overall").score = 0 :=
  ⟨(parse_evaluation_score_nonneg_default "Great answer overall").1,
    (parse_evaluation_score_nonneg_default "Great answer overall").2 (by decide)⟩

/-- C2 (counterexample): the text Score: 15/10 parses to score 15, which is
    outside the claimed range 0 to 10. -/
theorem parse_evaluation_score_above_ten :
    (parse_evaluation "Score: 15/10").score = 15 ∧
      ¬ (parse_evaluation "Score: 15/10").score ≤ 10 := by decide

/-- C9: the evaluation parser is total, and on any text none of whose
    stripped lines starts with one of the five labels it returns the default
    record: score 0, empty lists, empty strings. -/
theorem parse_evaluation_total_defaults (text : String)
    (h : ∀ l ∈ splitLines text, ¬ is_label_line (pyStrip l)) :
    parse_evaluation text =
      { score := 0, strengths := [], areas_for_improvement := [],
        feedback := "", overall_assessment := "" } := by
  unfold parse_evaluation
  rw [parse_eval_fold_id _ _ rfl h]
  rfl

theorem parse_evaluation_total_defaults_witness :
    parse_evaluation "completely unstructured rambling\n\nmore stray text" =
      { score := 0, strengths := [], areas_for_improvement := [],
        feedback := "", overall_assessment := "" } :=
  parse_evaluation_total_defaults _ (by decide)

/-! ## C1: the aggregation of evaluate_interview_round -/

theorem foldl_ratAdd_score (l : List AnswerEvaluation) :
    ∀ a : ℚ, l.foldl (fun acc e => ratAdd acc e.score) a = a + (l.map AnswerEvaluation.score).sum := by
  induction l with
  | nil => intro a; simp
  | cons x xs ih =>
    intro a
    rw [List.foldl_cons, ih, ratAdd_eq, List.map_cons, List.sum_cons]
    ring

/-- C1 (amended): for every answer-evaluation oracle and every input list its
    round evaluation has total_questions equal to the number of pairs and
    average_score equal to the arithmetic mean of the per-answer scores
    rounded to 2 decimal places by round-half-to-even (Python round(x, 2)),
    with average_score 0 on the empty list; the stored value is the rounded
    mean, not the exact mean (see the counterexample). -/
theorem evaluate_round_average (f : String → String → String → AnswerEvaluation)
    (qas : List QA) :
    (evaluate_interview_round f qas).total_questions = qas.length ∧
    (evaluate_interview_round f qas).average_score =
      pyRound2 (if qas = [] then 0
        else (qas.map fun qa => (f qa.question qa.answer (qa.type.getD "Unknown")).score).sum /
          (qas.length : ℚ)) ∧
    (qas = [] → (evaluate_interview_round f qas).average_score = 0) := by
  refine ⟨rfl, ?_, ?_⟩
  · rcases eq_or_ne qas [] with rfl | hne
    · rfl
    · simp only [evaluate_interview_round, if_neg hne]
      rw [foldl_ratAdd_score, ratDiv_eq, zero_add, List.map_map]
      rfl
  · intro h
    subst h
    have hz : (evaluate_interview_round f []).average_score = pyRound2 0 := by
      simp [evaluate_interview_round]
    rw [hz]
    decide

theorem evaluate_round_average_witness :
    (evaluate_interview_round (fun _ _ _ => emptyEvaluation) []).average_score = 0 ∧
    (evaluate_interview_round (fun _ _ _ => emptyEvaluation) []).total_questions = 0 :=
  ⟨(evaluate_round_average (fun _ _ _ => emptyEvaluation) []).2.2 rfl,
    (evaluate_round_average (fun _ _ _ => emptyEvaluation) []).1⟩

def c1_eval_one : AnswerEvaluation :=
  { score := 1, strengths := [], areas_for_improvement := [],
    feedback := "", overall_assessment := "" }

def c1_f : String → String → String → AnswerEvaluation := fun q _ _ =>
  if q = "q1" then c1_eval_one else emptyEvaluation

def c1_qas : List QA :=
  [{ question := "q1", answer := "a1", type := none },
   { question := "q2", answer := "a2", type := none },
   { question := "q3", answer := "a3", type := none }]

/-- C1 (counterexample): with three answers scored 1, 0 and 0 the stored
    average_score is 33/100 = round(1/3, 2), which differs from the exact
    arithmetic mean 1/3 of the per-answer scores. -/
theorem evaluate_round_average_not_exact_mean :
    (evaluate_interview_round c1_f c1_qas).average_score ≠
      ((evaluate_interview_round c1_f c1_qas).evaluations.map AnswerEvaluation.score).sum /
        ((evaluate_interview_round c1_f c1_qas).total_questions : ℚ) := by
  have h1 : (evaluate_interview_round c1_f c1_qas).average_score = mkRat 33 100 := by decide
  have h2 : (evaluate_interview_round c1_f c1_qas).evaluations.map AnswerEvaluation.score =
      [1, 0, 0] := by decide
  have h3 : (evaluate_interview_round c1_f c1_qas).total_questions = 3 := by decide
  rw [h1, h2, h3, Rat.mkRat_eq_div]
  simp only [List.sum_cons, List.sum_nil]
  norm_num

/-! ## C3 and C4: the report aggregation -/

theorem mkRat_thirteen_halves : (mkRat 13 2 : ℚ) = 13 / 2 := by
  rw [Rat.mkRat_eq_div]
  norm_num

theorem coa_none_none : (create_overall_assessment none none).overall_score = 0 := rfl

theorem coa_hr_only (h : RoundEvaluation) (hne : h.average_score ≠ 0) :
    (create_overall_assessment (some h) none).overall_score = h.average_score := by
  simp only [create_overall_assessment, if_pos hne, List.append_nil]
  rw [if_neg (by simp : ¬ ([h.average_score] = []))]
  rw [sumRat_eq, ratDiv_eq]
  simp

theorem coa_tech_only (t : RoundEvaluation) (tne : t.average_score ≠ 0) :
    (create_overall_assessment none (some t)).overall_score = t.average_score := by
  simp only [create_overall_assessment, if_pos tne, List.nil_append]
  rw [if_neg (by simp : ¬ ([t.average_score] = []))]
  rw [sumRat_eq, ratDiv_eq]
  simp

theorem coa_both (h t : RoundEvaluation) (hne : h.average_score ≠ 0)
    (tne : t.average_score ≠ 0) :
    (create_overall_assessment (some h) (some t)).overall_score =
      (h.average_score + t.average_score) / 2 := by
  simp only [create_overall_assessment, if_pos hne, if_pos tne, List.singleton_append]
  rw [if_neg (by simp : ¬ ([h.average_score, t.average_score] = []))]
  rw [sumRat_eq, ratDiv_eq]
  simp only [List.sum_cons, List.sum_nil, List.length_cons, List.length_nil]
  norm_num

theorem coa_hr_zero (h : RoundEvaluation) (h0 : h.average_score = 0)
    (t : Option RoundEvaluation) :
    (create_overall_assessment (some h) t).overall_score =
      (create_overall_assessment none t).overall_score := by
  cases t <;> simp [create_overall_assessment, h0]

theorem coa_tech_zero (t : RoundEvaluation) (t0 : t.average_score = 0)
    (h : Option RoundEvaluation) :
    (create_overall_assessment h (some t)).overall_score =
      (create_overall_assessment h none).overall_score := by
  cases h <;> simp [create_overall_assessment, t0]

/-- C3 (amended): a round contributes to overall_score only when it is
    present with a nonzero average_score (Python truthiness); overall_score
    is the mean of the contributing scores, 0 when none contributes, and a
    present round whose average_score is 0 is treated exactly like an absent
    round (the claimed mean over all present rounds fails on such rounds,
    see the counterexample). -/
theorem overall_score_mean_of_nonzero_rounds :
    (create_overall_assessment none none).overall_score = 0 ∧
    (∀ h : RoundEvaluation, h.average_score ≠ 0 →
      (create_overall_assessment (some h) none).overall_score = h.average_score) ∧
    (∀ t : RoundEvaluation, t.average_score ≠ 0 →
      (create_overall_assessment none (some t)).overall_score = t.average_score) ∧
    (∀ h t : RoundEvaluation, h.average_score ≠ 0 → t.average_score ≠ 0 →
      (create_overall_assessment (some h) (some t)).overall_score =
        (h.average_score + t.average_score) / 2) ∧
    (∀ h : RoundEvaluation, h.average_score = 0 → ∀ t : Option RoundEvaluation,
      (create_overall_assessment (some h) t).overall_score =
        (create_overall_assessment none t).overall_score) ∧
    (∀ t : RoundEvaluation, t.average_score = 0 → ∀ h : Option RoundEvaluation,
      (create_overall_assessment h (some t)).overall_score =
        (create_overall_assessment h none).overall_score) :=
  ⟨coa_none_none, coa_hr_only, coa_tech_only, coa_both, coa_hr_zero, coa_tech_zero⟩

def c3_hr_zero : RoundEvaluation :=
  { evaluations := [], average_score := 0, total_questions := 0,
    performance_level := "Needs Improvement" }

def c3_tech_eight : RoundEvaluation :=
  { evaluations := [], average_score := 8, total_questions := 1,
    performance_level := "Good" }

/-- C3 (counterexample): with an HR round of average_score 0 present and a
    technical round of average_score 8, the report's overall_score is 8,
    though the arithmetic mean of the two present rounds is 4. -/
theorem overall_score_ignores_zero_round :
    (create_overall_assessment (some c3_hr_zero) (some c3_tech_eight)).overall_score = 8 ∧
    (c3_hr_zero.average_score + c3_tech_eight.average_score) / 2 = 4 ∧ (8 : ℚ) ≠ 4 := by
  refine ⟨by decide, ?_, by norm_num⟩
  show ((0 : ℚ) + 8) / 2 = 4
  norm_num

theorem overall_score_mean_of_nonzero_rounds_witness :
    (create_overall_assessment (some c3_tech_eight) (some c3_tech_eight)).overall_score =
      (8 + 8) / 2 :=
  overall_score_mean_of_nonzero_rounds.2.2.2.1 c3_tech_eight c3_tech_eight
    (by decide) (by decide)

/-- The recommendation field is the banding of the overall_score field. -/
theorem create_overall_assessment_recommendation_def (hr tech : Option RoundEvaluation) :
    (create_overall_assessment hr tech).recommendation =
      (if (create_overall_assessment hr tech).overall_score ≥ 8 then
        "Strong candidate - Highly recommended"
       else if (create_overall_assessment hr tech).overall_score ≥ mkRat 13 2 then
        "Good candidate - Recommended"
       else if (create_overall_assessment hr tech).overall_score ≥ 5 then
        "Average candidate - Consider for specific roles"
       else "Needs improvement - Not recommended at this time") := rfl

/-- C4 (amended): a report from an HR round with average_score 5.0 and no
    technical round has overall_score 5.0, recommendation
    "Average candidate - Consider for specific roles" (the code uses an
    ASCII hyphen, not the en dash of the spec, see the counterexample) and
    exactly the two fixed HR-improvement tips; in general the recommendation
    is the banding at 8.0, 6.5 and 5.0 with the four hyphenated strings. -/
theorem report_recommendation_banding :
    (∀ h : RoundEvaluation, h.average_score = 5 →
      (generate_interview_report (some h) none).overall_assessment.overall_score = 5 ∧
      (generate_interview_report (some h) none).overall_assessment.recommendation =
        "Average candidate - Consider for specific roles" ∧
      (generate_interview_report (some h) none).recommendations =
        ["Focus on improving communication and interpersonal skills",
         "Practice behavioral interview questions"]) ∧
    (∀ hr tech : Option RoundEvaluation,
      (8 ≤ (create_overall_assessment hr tech).overall_score →
        (create_overall_assessment hr tech).recommendation =
          "Strong candidate - Highly recommended") ∧
      ((create_overall_assessment hr tech).overall_score < 8 →
        13 / 2 ≤ (create_overall_assessment hr tech).overall_score →
        (create_overall_assessment hr tech).recommendation =
          "Good candidate - Recommended") ∧
      ((create_overall_assessment hr tech).overall_score < 13 / 2 →
        5 ≤ (create_overall_assessment hr tech).overall_score →
        (create_overall_assessment hr tech).recommendation =
          "Average candidate - Consider for specific roles") ∧
      ((create_overall_assessment hr tech).overall_score < 5 →
        (create_overall_assessment hr tech).recommendation =
          "Needs improvement - Not recommended at this time")) := by
  constructor
  · intro h h5
    have hne : h.average_score ≠ 0 := by rw [h5]; norm_num
    have hsc : (generate_interview_report (some h) none).overall_assessment.overall_score = 5 := by
      show (create_overall_assessment (some h) none).overall_score = 5
      rw [coa_hr_only h hne, h5]
    refine ⟨hsc, ?_, ?_⟩
    · show (create_overall_assessment (some h) none).recommendation = _
      rw [create_overall_assessment_recommendation_def, mkRat_thirteen_halves]
      have h5' : (create_overall_assessment (some h) none).overall_score = 5 := hsc
      rw [h5']
      rw [if_neg (by norm_num), if_neg (by norm_num), if_pos (by norm_num)]
    · show generate_recommendations (some h) none = _
      simp only [generate_recommendations]
      rw [if_pos (show h.average_score < 6 by rw [h5]; norm_num)]
      simp
  · intro hr tech
    refine ⟨?_, ?_, ?_, ?_⟩
    · intro h8
      rw [create_overall_assessment_recommendation_def, if_pos h8]
    · intro h8 h65
      rw [create_overall_assessment_recommendation_def, mkRat_thirteen_halves,
        if_neg (not_le.mpr h8), if_pos h65]
    · intro h65 h5
      rw [create_overall_assessment_recommendation_def, mkRat_thirteen_halves,
        if_neg (not_le.mpr (by linarith)), if_neg (not_le.mpr h65), if_pos h5]
    · intro h5
      rw [create_overall_assessment_recommendation_def, mkRat_thirteen_halves,
        if_neg (not_le.mpr (by linarith)), if_neg (not_le.mpr (by linarith)),
        if_neg (not_le.mpr h5)]

def c4_hr_five : RoundEvaluation :=
  { evaluations := [], average_score := 5, total_questions := 1,
    performance_level := "Needs Improvement" }

theorem report_recommendation_banding_witness :
    (generate_interview_report (some c4_hr_five) none).overall_assessment.overall_score = 5 ∧
    (generate_interview_report (some c4_hr_five) none).overall_assessment.recommendation =
      "Average candidate - Consider for specific roles" ∧
    (generate_interview_report (some c4_hr_five) none).recommendations =
      ["Focus on improving communication and interpersonal skills",
       "Practice behavioral interview questions"] :=
  report_recommendation_banding.1 c4_hr_five rfl

/-- C4 (counterexample): the recommendation string built for the 5.0 report
    uses an ASCII hyphen and is therefore not the en dash string
    "Average candidate – Consider for specific roles" the claim gives. -/
theorem report_recommendation_dash_mismatch :
    (generate_interview_report (some c4_hr_five) none).overall_assessment.recommendation =
      "Average candidate - Consider for specific roles" ∧
    (generate_interview_report (some c4_hr_five) none).overall_assessment.recommendation ≠
      "Average candidate – Consider for specific roles" := by decide

/-! ## C5 and C10: the section parser -/

theorem parse_sections_loop_no_header :
    ∀ (lines : List String) (sections : List (String × String)) (cur : String)
      (content : List String),
      (∀ l ∈ lines, is_section_header (pyStrip l) = none) →
      parse_sections_loop sections cur content lines =
        (if content ++ ((lines.map pyStrip).filter (fun l => l ≠ "")) = [] then sections
         else
           dictSet cur (joinNl (content ++ (lines.map pyStrip).filter (fun l => l ≠ "")))
             sections) := by
  intro lines
  induction lines with
  | nil =>
    intro sections cur content _
    simp only [parse_sections_loop, List.map_nil, List.filter_nil, List.append_nil]
    by_cases hc : content = []
    · simp [hc]
    · simp [hc]
  | cons raw rest ih =>
    intro sections cur content h
    have hraw : is_section_header (pyStrip raw) = none := h raw (List.mem_cons_self _ _)
    have hrest : ∀ l ∈ rest, is_section_header (pyStrip l) = none :=
      fun l hl => h l (List.mem_cons_of_mem _ hl)
    simp only [parse_sections_loop]
    by_cases h0 : pyStrip raw = ""
    · rw [if_pos h0, ih _ _ _ hrest]
      simp [h0, List.filter_cons]
    · rw [if_neg h0]
      simp only [hraw]
      rw [ih _ _ _ hrest]
      simp [h0, List.filter_cons, List.append_assoc]

/-- C5 (amended): on a text none of whose stripped lines is recognized as a
    section header, the parser returns the single key "other" whose content
    is the non-blank lines each stripped of surrounding whitespace, in input
    order, joined by newlines; when every line is blank the returned mapping
    is empty (the claim's "content equals the input with blank lines removed"
    fails because every kept line is also stripped, see the counterexample). -/
theorem parse_sections_no_header (text : String)
    (hnh : ∀ l ∈ splitLines text, is_section_header (pyStrip l) = none) :
    parse_sections text =
      (if ((splitLines text).map pyStrip).filter (fun l => l ≠ "") = [] then []
       else
         [("other", joinNl (((splitLines text).map pyStrip).filter (fun l => l ≠ "")))]) := by
  unfold parse_sections
  rw [parse_sections_loop_no_header _ _ _ _ hnh]
  simp only [List.nil_append]
  by_cases hc : ((splitLines text).map pyStrip).filter (fun l => l ≠ "") = []
  · rw [if_pos hc, if_pos hc]
  · rw [if_neg hc, if_neg hc]
    rfl

theorem parse_sections_no_header_witness :
    parse_sections "John Doe\n\n  likes Lean  " = [("other", "John Doe\nlikes Lean")] := by
  rw [parse_sections_no_header _ (by decide)]
  decide

/-- C5 (counterexample): on the header-free text consisting of the single
    line spaces-hi-spaces the parser returns content "hi", which is not the
    input with blank lines removed (the surrounding whitespace is gone). -/
theorem parse_sections_strips_lines :
    parse_sections "  hi  " = [("other", "hi")] ∧ ("hi" : String) ≠ "  hi  " := by decide

theorem parse_sections_loop_segment :
    ∀ (block : List String) (sections : List (String × String)) (cur : String)
      (content : List String) (rest : List String),
      (∀ l ∈ block, pyStrip l ≠ "" ∧ is_section_header (pyStrip l) = none) →
      parse_sections_loop sections cur content (block ++ rest) =
        parse_sections_loop sections cur (content ++ block.map pyStrip) rest := by
  intro block
  induction block with
  | nil => intro s c ct r _; simp
  | cons raw bt ih =>
    intro s c ct r h
    obtain ⟨h0, hh⟩ := h raw (List.mem_cons_self _ _)
    have hbt : ∀ l ∈ bt, pyStrip l ≠ "" ∧ is_section_header (pyStrip l) = none :=
      fun l hl => h l (List.mem_cons_of_mem _ hl)
    simp only [List.cons_append, parse_sections_loop]
    rw [if_neg h0]
    simp only [hh, List.append_eq]
    rw [ih _ _ _ _ hbt]
    simp [List.append_assoc]

/-- C10 (amended): when the same header key is detected on two lines and at
    least one content line follows the second occurrence, only the content
    after the last occurrence is stored under that key; the block between
    the two occurrences is overwritten and absent (when nothing follows the
    last occurrence the earlier block survives, see the counterexample). -/
theorem parse_sections_duplicate_header_overwrites
    (text hl1 hl2 hdr : String) (b1 b2 : List String)
    (hsplit : splitLines text = hl1 :: (b1 ++ hl2 :: b2))
    (hh1 : is_section_header (pyStrip hl1) = some hdr)
    (hh2 : is_section_header (pyStrip hl2) = some hdr)
    (hb1 : ∀ l ∈ b1, pyStrip l ≠ "" ∧ is_section_header (pyStrip l) = none)
    (hb2 : ∀ l ∈ b2, pyStrip l ≠ "" ∧ is_section_header (pyStrip l) = none)
    (hne1 : b1 ≠ []) (hne2 : b2 ≠ []) :
    parse_sections text = [(hdr, joinNl (b2.map pyStrip))] := by
  have hempty : is_section_header ("" : String) = none := by decide
  have h1ne : pyStrip hl1 ≠ "" := by
    intro e
    rw [e, hempty] at hh1
    exact Option.noConfusion hh1
  have h2ne : pyStrip hl2 ≠ "" := by
    intro e
    rw [e, hempty] at hh2
    exact Option.noConfusion hh2
  unfold parse_sections
  rw [hsplit]
  simp only [parse_sections_loop]
  rw [if_neg h1ne]
  simp only [hh1]
  rw [if_neg (by simp : ¬ (([] : List String) ≠ []))]
  rw [parse_sections_loop_segment _ _ _ _ _ hb1]
  simp only [List.nil_append, parse_sections_loop]
  rw [if_neg h2ne]
  simp only [hh2]
  rw [if_pos (show b1.map pyStrip ≠ [] by simpa using hne1)]
  rw [parse_sections_loop_no_header _ _ _ _ (fun l hl => (hb2 l hl).2)]
  have hfilter : ((b2.map pyStrip).filter (fun l => l ≠ "")) = b2.map pyStrip := by
    rw [List.filter_eq_self]
    intro a ha
    obtain ⟨l, hl, rfl⟩ := List.mem_map.mp ha
    simpa using (hb2 l hl).1
  simp only [List.nil_append, hfilter]
  rw [if_neg (show ¬ (b2.map pyStrip = []) by simpa using hne2)]
  simp [dictSet]

theorem parse_sections_duplicate_header_overwrites_witness :
    parse_sections "Skills\nA B C D row\nSkills\nPython and Lean" =
      [("skills", "Python and Lean")] := by
  have h := parse_sections_duplicate_header_overwrites
    "Skills\nA B C D row\nSkills\nPython and Lean" "Skills" "Skills" "skills"
    ["A B C D row"] ["Python and Lean"]
    (by decide) (by decide) (by decide) (by decide) (by decide) (by decide) (by decide)
  simpa using h

/-- C10 (counterexample): when no content line follows the second occurrence
    of the header, the block accumulated between the two occurrences is kept,
    not overwritten: Skills, Python, Skills stores content Python. -/
theorem parse_sections_duplicate_header_keeps_first_block :
    parse_sections "Skills\nPython\nSkills" = [("skills", "Python")] := by decide

/-! ## C6: the performance banding -/

/-- Rank of the five performance levels, lowest band 0 to highest band 4. -/
def level_rank (level : String) : Nat :=
  if level = "Excellent" then 4
  else if level = "Good" then 3
  else if level = "Average" then 2
  else if level = "Below Average" then 1
  else 0

theorem mkRat_seventeen_halves : (mkRat 17 2 : ℚ) = 17 / 2 := by
  rw [Rat.mkRat_eq_div]
  norm_num

theorem mkRat_eleven_halves : (mkRat 11 2 : ℚ) = 11 / 2 := by
  rw [Rat.mkRat_eq_div]
  norm_num

/-- C6: the performance banding is total (every score maps to one of the five
    levels), monotone in the score under the rank ordering of the levels,
    and a score exactly on a band edge resolves to the higher band
    (7 maps to Good). -/
theorem performance_level_total_monotone :
    (∀ s : ℚ, get_performance_level s = "Excellent" ∨ get_performance_level s = "Good" ∨
      get_performance_level s = "Average" ∨ get_performance_level s = "Below Average" ∨
      get_performance_level s = "Needs Improvement") ∧
    (∀ s t : ℚ, s ≤ t →
      level_rank (get_performance_level s) ≤ level_rank (get_performance_level t)) ∧
    get_performance_level 7 = "Good" := by
  refine ⟨?_, ?_, by decide⟩
  · intro s
    unfold get_performance_level
    split_ifs <;> simp
  · intro s t hst
    unfold get_performance_level
    rw [mkRat_seventeen_halves, mkRat_eleven_halves]
    split_ifs <;> first | decide | linarith

theorem performance_level_total_monotone_witness :
    level_rank (get_performance_level 3) ≤ level_rank (get_performance_level 9) :=
  performance_level_total_monotone.2.1 3 9 (by norm_num)

/-! ## C8: the question parser -/

theorem parse_question_line_question (k raw : String) :
    (parse_question_line k raw).map QuestionRecord.question =
      (if (⟨strip_numbering (pyStrip raw).data⟩ : String) ≠ "" ∧
          (⟨strip_numbering (pyStrip raw).data⟩ : String).length > 10 then
        some (⟨strip_numbering (pyStrip raw).data⟩ : String)
       else none) := by
  simp only [parse_question_line]
  by_cases h0 : pyStrip raw = ""
  · rw [if_pos h0, h0]
    decide
  · rw [if_neg h0]
    by_cases hc : (⟨strip_numbering (pyStrip raw).data⟩ : String) ≠ "" ∧
        (⟨strip_numbering (pyStrip raw).data⟩ : String).length > 10
    · rw [if_pos hc, if_pos hc]
      rfl
    · rw [if_neg hc, if_neg hc]
      rfl

theorem parse_questions_question_texts (text k : String) :
    (parse_questions text k).map QuestionRecord.question =
      ((splitLines text).map fun raw => (⟨strip_numbering (pyStrip raw).data⟩ : String)).filter
        (fun l => l ≠ "" ∧ l.length > 10) := by
  unfold parse_questions
  induction splitLines text with
  | nil => rfl
  | cons raw rest ih =>
    have hchar := parse_question_line_question k raw
    cases hl : parse_question_line k raw with
    | none =>
      rw [hl] at hchar
      have hcond : ¬ ((⟨strip_numbering (pyStrip raw).data⟩ : String) ≠ "" ∧
          (⟨strip_numbering (pyStrip raw).data⟩ : String).length > 10) := by
        intro hc
        rw [if_pos hc] at hchar
        exact Option.noConfusion hchar
      rw [List.filterMap_cons_none hl, ih, List.map_cons, List.filter_cons,
        if_neg (by simpa using hcond)]
    | some q =>
      rw [hl] at hchar
      by_cases hc : (⟨strip_numbering (pyStrip raw).data⟩ : String) ≠ "" ∧
          (⟨strip_numbering (pyStrip raw).data⟩ : String).length > 10
      · rw [if_pos hc] at hchar
        simp only [Option.map_some'] at hchar
        have hq := Option.some.inj hchar
        rw [List.filterMap_cons_some hl, List.map_cons, ih, List.map_cons,
          List.filter_cons, if_pos (by simpa using hc), hq]
      · rw [if_neg hc] at hchar
        exact Option.noConfusion hchar

/-- C8: the generated-questions parser keeps, in input order, exactly the
    lines that are non-blank and longer than 10 characters once stripped and
    once a leading number-dot prefix is removed, one record per kept line;
    in particular the two-line example keeps only the first line, with its
    numbering removed. -/
theorem parse_questions_filtering :
    (∀ text k : String,
      (parse_questions text k).map QuestionRecord.question =
        ((splitLines text).map fun raw =>
            (⟨strip_numbering (pyStrip raw).data⟩ : String)).filter
          (fun l => l ≠ "" ∧ l.length > 10)) ∧
    parse_questions "1. Tell me about a challenge you overcame\n2. hi" "HR" =
      [{ question := "Tell me about a challenge you overcame", type := "HR",
         difficulty := "Easy", category := "Problem Solving" }] :=
  ⟨fun text k => parse_questions_question_texts text k, by decide⟩

end InterviewAI
